import Mathlib

/-!
Verification development for the sub-frame interpolation module
(src/src/engine/interpolate.js).

The module consists of two functions over a runtime holding a list of
targets and an optional renderer:

- setupInitialState: stores, on every visible non-stage target, a snapshot
  of its rendered state (x, y, direction, scale, costume, ghost), and
  clears the snapshot of every other target;
- interpolate: for every target holding a snapshot, pushes blended
  position / ghost-effect / direction-scale updates to the renderer
  drawable identified by the drawableID of the target.

Numbers are modelled as exact rationals; the transcendental direction
blend (sin / cos / atan2) is modelled over the reals.  The renderer is
modelled as a read-only drawable store plus a trace of update calls; the
one fallible operation in the source (reading the bounding box of a
drawable that is missing from the store, which raises a TypeError) is
modelled by Option, with none meaning that the exception propagates to
the caller.
-/

/-- Bounding box returned by drawable.getAABB(). -/
structure AABB where
  width : ℚ
  height : ℚ
deriving DecidableEq

/-- Renderer-side drawable; the module only queries its bounding box. -/
structure Drawable where
  aabb : AABB
deriving DecidableEq

/-- The renderer: a drawable store indexed by drawable id
(renderer._allDrawables).  A missing entry models an undefined slot. -/
structure Renderer where
  allDrawables : ℕ → Option Drawable

/-- The effects map of a target; the module reads only the ghost value. -/
structure Effects where
  ghost : ℚ
deriving DecidableEq

/-- The per-target snapshot stored by setupInitialState in
target.interpolationData. -/
structure InterpolationData where
  x : ℚ
  y : ℚ
  direction : ℚ
  scale : ℚ × ℚ
  costume : ℕ
  ghost : ℚ
deriving DecidableEq

/-- A target.  renderedDirection and renderedScale model the result of
target._getRenderedDirectionAndScale(), a pure function of the logical
state of the target that returns a fresh direction-scale pair. -/
structure Target where
  x : ℚ
  y : ℚ
  effects : Effects
  currentCostume : ℕ
  visible : Bool
  isStage : Bool
  drawableID : ℕ
  renderedDirection : ℚ
  renderedScale : ℚ × ℚ
  interpolationData : Option InterpolationData
deriving DecidableEq

/-- The runtime: a target list and an optional renderer. -/
structure Runtime where
  targets : List Target
  renderer : Option Renderer

/-- Lines 5-21 of the source, body of the loop: a visible non-stage
target gets a snapshot of its current x, y, rendered direction, rendered
scale, costume and ghost; every other target gets its snapshot cleared. -/
def setupTarget (target : Target) : Target :=
  if target.visible && !target.isStage then
    { target with
      interpolationData := some
        { x := target.x
          y := target.y
          direction := target.renderedDirection
          scale := target.renderedScale
          costume := target.currentCostume
          ghost := target.effects.ghost } }
  else
    { target with interpolationData := none }

/-- Lines 5-21 of the source: setupInitialState runs setupTarget over
every target of the runtime. -/
def setupInitialState (runtime : Runtime) : Runtime :=
  { runtime with targets := runtime.targets.map setupTarget }

/-- Lines 44-63 of the source: the position block of interpolate.
Outer none models the TypeError raised when the drawable is missing from
the store and its bounding box is read; some none means no position
update call; some (some p) means updateDrawablePosition is called with
p. -/
def positionUpdate (renderer : Renderer) (time : ℚ) (target : Target)
    (d : InterpolationData) : Option (Option (ℚ × ℚ)) :=
  if |target.x - d.x| > 0.1 ∨ |target.y - d.y| > 0.1 then
    match renderer.allDrawables target.drawableID with
    | none => none
    | some drawable =>
      if |target.x - d.x| < min 50 (10 + drawable.aabb.width) ∧
          |target.y - d.y| < min 50 (10 + drawable.aabb.height) then
        some (some (d.x + (target.x - d.x) * time, d.y + (target.y - d.y) * time))
      else
        some none
  else
    some none

/-- Lines 65-72 of the source: the ghost-effect block of interpolate.
none means no updateDrawableEffect call; some g means the call pushes g.
Note that line 70 of the source takes target.effects.ghost, the current
ghost, as the base of the blend, not the snapshot ghost. -/
def ghostUpdate (time : ℚ) (target : Target) (d : InterpolationData) : Option ℚ :=
  if |target.effects.ghost - d.ghost| > 0 ∧ |target.effects.ghost - d.ghost| < 25 then
    some (target.effects.ghost + (target.effects.ghost - d.ghost) * time)
  else
    none

/-- Math.sign restricted to rationals. -/
def mathSign (q : ℚ) : ℚ :=
  if 0 < q then 1 else if q < 0 then -1 else 0

/-- Lines 95-103 of the source: the scale of the target is interpolated
exactly when it differs from the snapshot scale on some axis, both axes
keep the sign of the snapshot, and both absolute per-axis changes are
below 100. -/
abbrev scaleInterpolated (target : Target) (d : InterpolationData) : Prop :=
  (target.renderedScale.1 ≠ d.scale.1 ∨ target.renderedScale.2 ≠ d.scale.2) ∧
  (mathSign target.renderedScale.1 = mathSign d.scale.1 ∧
    mathSign target.renderedScale.2 = mathSign d.scale.2) ∧
  (|target.renderedScale.1 - d.scale.1| < 100 ∧ |target.renderedScale.2 - d.scale.2| < 100)

/-- Lines 104-105 of the source: the per-axis linear blend of the scale,
snapshot plus change times time. -/
abbrev interpolatedScale (time : ℚ) (target : Target) (d : InterpolationData) : ℚ × ℚ :=
  (d.scale.1 + (target.renderedScale.1 - d.scale.1) * time,
    d.scale.2 + (target.renderedScale.2 - d.scale.2) * time)

/-- Math.atan2 y x over the reals, realised as the argument of the
complex number with real part x and imaginary part y; the range is the
interval from minus pi exclusive to pi inclusive, as for Math.atan2 when
signed zeros are ignored. -/
noncomputable def atan2 (y x : ℝ) : ℝ :=
  Complex.arg ⟨x, y⟩

/-- Lines 82-88 of the source: the circular direction blend.  Both
angles are converted to radians, the vector sum weights the current
angle by time and the starting angle by one, and the angle of the sum is
converted back to degrees. -/
noncomputable def blendDirection (time direction startingDirection : ℚ) : ℝ :=
  atan2 (Real.sin ((direction : ℝ) * Real.pi / 180) * (time : ℝ) +
      Real.sin ((startingDirection : ℝ) * Real.pi / 180))
    (Real.cos ((direction : ℝ) * Real.pi / 180) * (time : ℝ) +
      Real.cos ((startingDirection : ℝ) * Real.pi / 180)) * 180 / Real.pi

/-- Lines 77-113 of the source: the direction-scale block of
interpolate, reached only when the costume did not change.  none means
no updateDrawableDirectionScale call; some (dir, scale) means the call
pushes that pair.  The direction is blended when it differs from the
snapshot direction, the scale is blended under scaleInterpolated, and
the call is made when either happened. -/
noncomputable def directionScaleUpdate (time : ℚ) (target : Target)
    (d : InterpolationData) : Option (ℝ × ℚ × ℚ) :=
  if target.renderedDirection ≠ d.direction ∨ scaleInterpolated target d then
    some
      (if target.renderedDirection ≠ d.direction then
          blendDirection time target.renderedDirection d.direction
        else ((target.renderedDirection : ℚ) : ℝ),
        if scaleInterpolated target d then interpolatedScale time target d
        else target.renderedScale)
  else
    none

/-- The renderer calls issued for one target during one interpolate run:
at most one updateDrawablePosition, one updateDrawableEffect for ghost,
and one updateDrawableDirectionScale. -/
structure TargetUpdates where
  position : Option (ℚ × ℚ)
  ghost : Option ℚ
  directionScale : Option (ℝ × ℚ × ℚ)

/-- Lines 34-115 of the source, body of the loop of interpolate for one
target.  A target without a snapshot is skipped with no renderer calls.
The position block runs first and its TypeError (missing drawable)
aborts the whole run, modelled by none.  The direction-scale block is
guarded by the costume comparison of line 75.  The target itself is
returned unchanged: the source assigns no field of the target. -/
noncomputable def interpolateTarget (renderer : Renderer) (time : ℚ)
    (target : Target) : Option (Target × TargetUpdates) :=
  match target.interpolationData with
  | none => some (target, ⟨none, none, none⟩)
  | some d =>
    match positionUpdate renderer time target d with
    | none => none
    | some pos =>
      some (target,
        ⟨pos, ghostUpdate time target d,
          if d.costume ≠ target.currentCostume then none
          else directionScaleUpdate time target d⟩)

/-- The loop of interpolate over the target list, returning the final
target list and the update trace, tagged with the drawableID used for
the renderer calls; none when some iteration raised. -/
noncomputable def interpolateTargets (renderer : Renderer) (time : ℚ) :
    List Target → Option (List Target × List (ℕ × TargetUpdates))
  | [] => some ([], [])
  | target :: rest =>
    match interpolateTarget renderer time target with
    | none => none
    | some (t1, u) =>
      match interpolateTargets renderer time rest with
      | none => none
      | some (ts, us) => some (t1 :: ts, (target.drawableID, u) :: us)

/-- Lines 28-116 of the source: interpolate.  With no renderer it
returns at once with no calls; otherwise it runs the loop, and none
models an exception escaping to the caller. -/
noncomputable def interpolate (runtime : Runtime) (time : ℚ) :
    Option (Runtime × List (ℕ × TargetUpdates)) :=
  match runtime.renderer with
  | none => some (runtime, [])
  | some renderer =>
    match interpolateTargets renderer time runtime.targets with
    | none => none
    | some (ts, us) => some ({ runtime with targets := ts }, us)

/-- A sequence of interpolate calls with the given time values, as a
host issues several render passes against the same snapshots. -/
noncomputable def interpolateMany (runtime : Runtime) : List ℚ → Option Runtime
  | [] => some runtime
  | t :: ts =>
    match interpolate runtime t with
    | none => none
    | some (rt1, _) => interpolateMany rt1 ts

/-! Concrete runtimes used to evaluate the model at specific inputs. -/

/-- Snapshot with ghost 0 used for the ghost-blend evaluation. -/
def snapC1 : InterpolationData := ⟨0, 0, 90, (1, 1), 0, 0⟩

/-- Target whose ghost moved from 0 to 10 during the tick. -/
def targetC1 : Target := ⟨0, 0, ⟨10⟩, 0, true, false, 3, 90, (1, 1), some snapC1⟩

/-- Target whose ghost jumped from 0 to 30 during the tick. -/
def targetC1big : Target := { targetC1 with effects := ⟨30⟩ }

/-- Target whose ghost did not change during the tick. -/
def targetC1same : Target := { targetC1 with effects := ⟨0⟩ }

/-- A renderer whose drawable store is empty. -/
def rendererC2 : Renderer := ⟨fun _ => none⟩

/-- Snapshot at the origin. -/
def snapC2 : InterpolationData := ⟨0, 0, 0, (1, 1), 0, 0⟩

/-- Snapshotted target that moved to x 5, with drawable id 7. -/
def targetC2 : Target := ⟨5, 0, ⟨0⟩, 0, true, false, 7, 0, (1, 1), some snapC2⟩

/-- Runtime whose renderer has no drawable for the moved target. -/
def runtimeC2 : Runtime := ⟨[targetC2], some rendererC2⟩

/-- A drawable with a 40 by 40 bounding box. -/
def drawableC2w : Drawable := ⟨⟨40, 40⟩⟩

/-- A renderer whose store answers every id. -/
def rendererC2w : Renderer := ⟨fun _ => some drawableC2w⟩

/-- The moved target of runtimeC2 in front of a complete store. -/
def runtimeC2w : Runtime := ⟨[targetC2], some rendererC2w⟩

/-- Snapshot with direction 0, scale (1, 1), ghost 0. -/
def snapC3 : InterpolationData := ⟨0, 0, 0, (1, 1), 0, 0⟩

/-- Target whose ghost moved 0 to 10 and direction 0 to 90 in one tick. -/
def targetC3 : Target := ⟨0, 0, ⟨10⟩, 0, true, false, 3, 90, (1, 1), some snapC3⟩

/-- Snapshot with direction 350 degrees. -/
def snapC4 : InterpolationData := ⟨0, 0, 350, (1, 1), 0, 0⟩

/-- Target whose rendered direction is 10 degrees, a 20 degree
wrap-around turn from the snapshot. -/
def targetC4 : Target := ⟨0, 0, ⟨0⟩, 0, true, false, 3, 10, (1, 1), some snapC4⟩

/-- A snapshotted target for the no-mutation run. -/
def targetC5 : Target := ⟨1, 2, ⟨3⟩, 0, true, false, 4, 90, (1, 1), some ⟨0, 0, 0, (1, 1), 0, 0⟩⟩

/-- A headless runtime holding targetC5. -/
def runtimeC5 : Runtime := ⟨[targetC5], none⟩

/-- A visible non-stage target with no snapshot yet. -/
def targetC6a : Target := ⟨1, 2, ⟨5⟩, 3, true, false, 9, 45, (2, 2), none⟩

/-- The stage, holding a stale snapshot that capture must clear. -/
def targetC6b : Target := ⟨0, 0, ⟨0⟩, 0, true, true, 10, 0, (1, 1), some ⟨9, 9, 9, (9, 9), 9, 9⟩⟩

/-- Runtime holding the two capture examples. -/
def runtimeC6 : Runtime := ⟨[targetC6a, targetC6b], none⟩

/-- A drawable with a 40 by 40 bounding box, so both tolerances are 50. -/
def drawableC7 : Drawable := ⟨⟨40, 40⟩⟩

/-- Renderer storing drawableC7 at id 1. -/
def rendererC7 : Renderer := ⟨fun i => if i = 1 then some drawableC7 else none⟩

/-- Snapshot at the origin for the position blend. -/
def snapC7 : InterpolationData := ⟨0, 0, 0, (1, 1), 0, 0⟩

/-- Target that moved from the origin to x 5 during the tick. -/
def targetC7 : Target := ⟨5, 0, ⟨0⟩, 0, true, false, 1, 0, (1, 1), some snapC7⟩

/-- Snapshot taken with costume 0. -/
def snapC8 : InterpolationData := ⟨0, 0, 0, (1, 1), 0, 0⟩

/-- Target whose costume changed to 1, with direction and scale both
far from the snapshot. -/
def targetC8 : Target := ⟨0, 0, ⟨0⟩, 1, true, false, 2, 5, (3, 1), some snapC8⟩

/-- A renderer with an empty store; never consulted for targetC8. -/
def rendererC8 : Renderer := ⟨fun _ => none⟩

/-- Snapshot with scale (1, 1). -/
def snapC9 : InterpolationData := ⟨0, 0, 0, (1, 1), 0, 0⟩

/-- Target whose rendered scale flipped to (-1, 1), direction unchanged. -/
def targetC9 : Target := ⟨0, 0, ⟨0⟩, 0, true, false, 2, 0, (-1, 1), some snapC9⟩

/-- Snapshot with direction 0. -/
def snapC10 : InterpolationData := ⟨0, 0, 0, (1, 1), 0, 0⟩

/-- Target whose rendered direction moved to 90 degrees. -/
def targetC10 : Target := ⟨0, 0, ⟨0⟩, 0, true, false, 2, 90, (1, 1), some snapC10⟩

/-! Helper lemmas shared by the claim theorems. -/

/-- interpolateTarget never modifies the target it processes. -/
theorem interpolateTarget_fst (renderer : Renderer) (time : ℚ) (target : Target)
    (out : Target × TargetUpdates)
    (h : interpolateTarget renderer time target = some out) : out.1 = target := by
  cases hd : target.interpolationData with
  | none =>
    simp only [interpolateTarget, hd] at h
    cases h
    rfl
  | some d =>
    simp only [interpolateTarget, hd] at h
    cases hp : positionUpdate renderer time target d with
    | none =>
      simp only [hp] at h
      exact Option.noConfusion h
    | some pos =>
      simp only [hp] at h
      cases h
      rfl

/-- The loop of interpolate returns the target list unchanged. -/
theorem interpolateTargets_fst (renderer : Renderer) (time : ℚ) :
    ∀ (l : List Target) (out : List Target × List (ℕ × TargetUpdates)),
      interpolateTargets renderer time l = some out → out.1 = l := by
  intro l
  induction l with
  | nil =>
    intro out h
    simp only [interpolateTargets] at h
    cases h
    rfl
  | cons target rest ih =>
    intro out h
    simp only [interpolateTargets] at h
    cases ht : interpolateTarget renderer time target with
    | none =>
      simp only [ht] at h
      exact Option.noConfusion h
    | some tu =>
      simp only [ht] at h
      cases hr : interpolateTargets renderer time rest with
      | none =>
        simp only [hr] at h
        exact Option.noConfusion h
      | some restOut =>
        simp only [hr] at h
        cases h
        have h1 := interpolateTarget_fst renderer time target tu ht
        have h2 := ih restOut hr
        simp [h1, h2]

/-- C1: the source pushes a ghost update exactly when 0 < abs delta < 25,
but line 70 blends from the current ghost, not from the snapshot ghost:
with snapshot ghost 0, current ghost 10 and time one half the pushed
value is 15, while the specified value snapshot.ghost + delta times time
is 5.  Deltas of 30 and of 0 produce no effect update call. -/
theorem c1_ghost_base_bug_eval :
    ghostUpdate (1/2) targetC1 snapC1 = some 15 ∧
    ghostUpdate (1/2) targetC1big snapC1 = none ∧
    ghostUpdate (1/2) targetC1same snapC1 = none := by
  refine ⟨?_, ?_, ?_⟩ <;>
    norm_num [ghostUpdate, targetC1, targetC1big, targetC1same, snapC1]

/-- C5: a successful interpolate run, and any successful sequence of
such runs, returns every target exactly as it was (so x, y, effects,
currentCostume and the stored snapshot are all unchanged) and leaves the
renderer reference alone; only the returned update trace reflects the
renderer-side drawable calls. -/
theorem c5_no_target_mutation :
    (∀ (runtime : Runtime) (time : ℚ) (out : Runtime × List (ℕ × TargetUpdates)),
      interpolate runtime time = some out →
      out.1.targets = runtime.targets ∧ out.1.renderer = runtime.renderer) ∧
    (∀ (runtime : Runtime) (times : List ℚ) (final : Runtime),
      interpolateMany runtime times = some final →
      final.targets = runtime.targets ∧ final.renderer = runtime.renderer) := by
  have hone : ∀ (runtime : Runtime) (time : ℚ) (out : Runtime × List (ℕ × TargetUpdates)),
      interpolate runtime time = some out →
      out.1.targets = runtime.targets ∧ out.1.renderer = runtime.renderer := by
    intro runtime time out h
    cases hr : runtime.renderer with
    | none =>
      simp only [interpolate, hr] at h
      cases h
      exact ⟨rfl, hr⟩
    | some renderer =>
      simp only [interpolate, hr] at h
      cases ht : interpolateTargets renderer time runtime.targets with
      | none =>
        simp only [ht] at h
        exact Option.noConfusion h
      | some res =>
        obtain ⟨ts, us⟩ := res
        simp only [ht] at h
        cases h
        exact ⟨interpolateTargets_fst renderer time runtime.targets (ts, us) ht, rfl⟩
  refine ⟨hone, ?_⟩
  intro runtime times
  induction times generalizing runtime with
  | nil =>
    intro final h
    simp only [interpolateMany] at h
    cases h
    exact ⟨rfl, rfl⟩
  | cons t ts ih =>
    intro final h
    simp only [interpolateMany] at h
    cases hi : interpolate runtime t with
    | none =>
      simp only [hi] at h
      exact Option.noConfusion h
    | some out =>
      obtain ⟨rt1, calls⟩ := out
      simp only [hi] at h
      have h1 := hone runtime t (rt1, calls) hi
      have h2 := ih rt1 final h
      exact ⟨h2.1.trans h1.1, h2.2.trans h1.2⟩

/-- Witness for C5 at a concrete headless runtime and two time values. -/
theorem c5_no_target_mutation_witness :
    interpolateMany runtimeC5 [0, 1/2] = some runtimeC5 ∧
    runtimeC5.targets = runtimeC5.targets ∧ runtimeC5.renderer = runtimeC5.renderer := by
  have h : interpolateMany runtimeC5 [0, 1/2] = some runtimeC5 := rfl
  exact ⟨h, c5_no_target_mutation.2 runtimeC5 [0, 1/2] runtimeC5 h⟩

/-- C6: after setupInitialState, the processed form of every target of
the runtime is present in the new target list; a visible non-stage
target is given a snapshot of exactly its current x, y, rendered
direction, rendered scale, costume and ghost, and an invisible target or
the stage has its snapshot cleared to none. -/
theorem c6_snapshot_capture (runtime : Runtime) (target : Target)
    (h : target ∈ runtime.targets) :
    setupTarget target ∈ (setupInitialState runtime).targets ∧
    (target.visible = true ∧ target.isStage = false →
      (setupTarget target).interpolationData = some
        ⟨target.x, target.y, target.renderedDirection, target.renderedScale,
          target.currentCostume, target.effects.ghost⟩) ∧
    ((target.visible = false ∨ target.isStage = true) →
      (setupTarget target).interpolationData = none) := by
  refine ⟨List.mem_map_of_mem setupTarget h, ?_, ?_⟩
  · rintro ⟨hv, hs⟩
    simp [setupTarget, hv, hs]
  · rintro (hv | hs)
    · simp [setupTarget, hv]
    · simp [setupTarget, hs]

/-- Witness for C6 at a two-target runtime: the visible non-stage target
receives the snapshot of its current state. -/
theorem c6_snapshot_capture_witness :
    targetC6a ∈ runtimeC6.targets ∧
    (targetC6a.visible = true ∧ targetC6a.isStage = false) ∧
    (setupTarget targetC6a).interpolationData = some ⟨1, 2, 45, (2, 2), 3, 5⟩ := by
  have hm : targetC6a ∈ runtimeC6.targets := by simp [runtimeC6]
  have hv : targetC6a.visible = true ∧ targetC6a.isStage = false := ⟨rfl, rfl⟩
  exact ⟨hm, hv, (c6_snapshot_capture runtimeC6 targetC6a hm).2.1 hv⟩

/-- C8: when the costume of a target differs from the snapshot costume,
a successful interpolate pass over that target issues no direction-scale
renderer update, whatever the direction and scale deltas are. -/
theorem c8_costume_guard (renderer : Renderer) (time : ℚ) (target : Target)
    (d : InterpolationData) (hd : target.interpolationData = some d)
    (hc : d.costume ≠ target.currentCostume)
    (out : Target × TargetUpdates)
    (h : interpolateTarget renderer time target = some out) :
    out.2.directionScale = none := by
  simp only [interpolateTarget, hd] at h
  cases hp : positionUpdate renderer time target d with
  | none =>
    simp only [hp] at h
    exact Option.noConfusion h
  | some pos =>
    simp only [hp] at h
    cases h
    simp [hc]

/-- Witness for C8: a target whose costume moved from 0 to 1 while its
rendered direction and scale also moved; no direction-scale update. -/
theorem c8_costume_guard_witness :
    targetC8.interpolationData = some snapC8 ∧
    snapC8.costume ≠ targetC8.currentCostume ∧
    interpolateTarget rendererC8 (1/2) targetC8 = some (targetC8, ⟨none, none, none⟩) ∧
    (targetC8, (⟨none, none, none⟩ : TargetUpdates)).2.directionScale = none := by
  have hd : targetC8.interpolationData = some snapC8 := rfl
  have hc : snapC8.costume ≠ targetC8.currentCostume := by norm_num [snapC8, targetC8]
  have he : interpolateTarget rendererC8 (1/2) targetC8 = some (targetC8, ⟨none, none, none⟩) := by
    norm_num [interpolateTarget, positionUpdate, ghostUpdate, targetC8, snapC8, rendererC8]
  exact ⟨hd, hc, he, c8_costume_guard rendererC8 (1/2) targetC8 snapC8 hd hc _ he⟩

/-- C7: with the drawable of the target present in the store, the
position block pushes nothing when both displacement components have
magnitude at most 0.1; otherwise, with per-axis tolerances
min 50 (10 + width) and min 50 (10 + height), it pushes nothing when
either absolute displacement reaches its tolerance, and pushes the
linear blend snapshot plus displacement times time when both are below
tolerance. -/
theorem c7_position_blend (renderer : Renderer) (time : ℚ) (target : Target)
    (d : InterpolationData) (drawable : Drawable)
    (h : renderer.allDrawables target.drawableID = some drawable) :
    (|target.x - d.x| ≤ 0.1 ∧ |target.y - d.y| ≤ 0.1 →
      positionUpdate renderer time target d = some none) ∧
    ((|target.x - d.x| > 0.1 ∨ |target.y - d.y| > 0.1) →
      (min 50 (10 + drawable.aabb.width) ≤ |target.x - d.x| ∨
        min 50 (10 + drawable.aabb.height) ≤ |target.y - d.y|) →
      positionUpdate renderer time target d = some none) ∧
    ((|target.x - d.x| > 0.1 ∨ |target.y - d.y| > 0.1) →
      |target.x - d.x| < min 50 (10 + drawable.aabb.width) →
      |target.y - d.y| < min 50 (10 + drawable.aabb.height) →
      positionUpdate renderer time target d =
        some (some (d.x + (target.x - d.x) * time, d.y + (target.y - d.y) * time))) := by
  refine ⟨?_, ?_, ?_⟩
  · rintro ⟨hx, hy⟩
    have hcond : ¬(|target.x - d.x| > 0.1 ∨ |target.y - d.y| > 0.1) := by
      push_neg
      exact ⟨hx, hy⟩
    simp only [positionUpdate]
    rw [if_neg hcond]
  · intro hmove htol
    have hcond2 : ¬(|target.x - d.x| < min 50 (10 + drawable.aabb.width) ∧
        |target.y - d.y| < min 50 (10 + drawable.aabb.height)) := by
      rcases htol with h1 | h1
      · intro hc
        exact absurd hc.1 (not_lt.mpr h1)
      · intro hc
        exact absurd hc.2 (not_lt.mpr h1)
    simp only [positionUpdate, h]
    rw [if_pos hmove, if_neg hcond2]
  · intro hmove hxtol hytol
    simp only [positionUpdate, h]
    rw [if_pos hmove, if_pos (And.intro hxtol hytol)]

/-- Witness for C7: displacement 5 on x, bounding box 40 by 40, so both
tolerances are 50; at time one half the pushed position is (5/2, 0). -/
theorem c7_position_blend_witness :
    rendererC7.allDrawables targetC7.drawableID = some drawableC7 ∧
    (|targetC7.x - snapC7.x| > 0.1 ∨ |targetC7.y - snapC7.y| > 0.1) ∧
    |targetC7.x - snapC7.x| < min 50 (10 + drawableC7.aabb.width) ∧
    |targetC7.y - snapC7.y| < min 50 (10 + drawableC7.aabb.height) ∧
    positionUpdate rendererC7 (1/2) targetC7 snapC7 = some (some (5/2, 0)) := by
  have h : rendererC7.allDrawables targetC7.drawableID = some drawableC7 := rfl
  have hmove : |targetC7.x - snapC7.x| > 0.1 ∨ |targetC7.y - snapC7.y| > 0.1 := by
    left
    norm_num [targetC7, snapC7]
  have hx : |targetC7.x - snapC7.x| < min 50 (10 + drawableC7.aabb.width) := by
    norm_num [targetC7, snapC7, drawableC7]
  have hy : |targetC7.y - snapC7.y| < min 50 (10 + drawableC7.aabb.height) := by
    norm_num [targetC7, snapC7, drawableC7]
  have he := (c7_position_blend rendererC7 (1/2) targetC7 snapC7 drawableC7 h).2.2 hmove hx hy
  refine ⟨h, hmove, hx, hy, ?_⟩
  rw [he]
  norm_num [targetC7, snapC7]

/-- C9: when the rendered scale differs from the snapshot scale on some
axis, the scale is blended as snapshot plus delta times time exactly
when both signs are kept and both absolute deltas are below 100; when
the signs mismatch or a delta reaches 100 the scale is not blended: a
changed direction still triggers a direction-scale push carrying the
rendered scale unmodified, and an unchanged direction yields no push at
all. -/
theorem c9_scale_guard (time : ℚ) (target : Target) (d : InterpolationData)
    (hdiff : target.renderedScale.1 ≠ d.scale.1 ∨ target.renderedScale.2 ≠ d.scale.2) :
    ((mathSign target.renderedScale.1 = mathSign d.scale.1 ∧
        mathSign target.renderedScale.2 = mathSign d.scale.2) →
      (|target.renderedScale.1 - d.scale.1| < 100 ∧
        |target.renderedScale.2 - d.scale.2| < 100) →
      directionScaleUpdate time target d =
        some
          (if target.renderedDirection ≠ d.direction then
              blendDirection time target.renderedDirection d.direction
            else ((target.renderedDirection : ℚ) : ℝ),
            interpolatedScale time target d)) ∧
    ((¬(mathSign target.renderedScale.1 = mathSign d.scale.1 ∧
        mathSign target.renderedScale.2 = mathSign d.scale.2) ∨
      100 ≤ |target.renderedScale.1 - d.scale.1| ∨
      100 ≤ |target.renderedScale.2 - d.scale.2|) →
      (target.renderedDirection ≠ d.direction →
        directionScaleUpdate time target d =
          some (blendDirection time target.renderedDirection d.direction,
            target.renderedScale)) ∧
      (target.renderedDirection = d.direction →
        directionScaleUpdate time target d = none)) := by
  constructor
  · intro hsign hsmall
    have hsi : scaleInterpolated target d := ⟨hdiff, hsign, hsmall⟩
    simp only [directionScaleUpdate]
    rw [if_pos (Or.inr hsi), if_pos hsi]
  · intro hguard
    have hnsi : ¬scaleInterpolated target d := by
      rintro ⟨h1, h2, h3⟩
      rcases hguard with hg | hg | hg
      · exact hg h2
      · exact absurd h3.1 (not_lt.mpr hg)
      · exact absurd h3.2 (not_lt.mpr hg)
    constructor
    · intro hdir
      simp only [directionScaleUpdate]
      rw [if_pos (Or.inl hdir), if_pos hdir, if_neg hnsi]
    · intro hdir
      have hno : ¬(target.renderedDirection ≠ d.direction ∨ scaleInterpolated target d) := by
        rintro (hne | hsi)
        · exact hne hdir
        · exact hnsi hsi
      simp only [directionScaleUpdate]
      rw [if_neg hno]

/-- Witness for C9: snapshot scale (1, 1), rendered scale (-1, 1), a
sign mismatch on x with the direction unchanged: no direction-scale
push. -/
theorem c9_scale_guard_witness :
    (targetC9.renderedScale.1 ≠ snapC9.scale.1 ∨ targetC9.renderedScale.2 ≠ snapC9.scale.2) ∧
    ¬(mathSign targetC9.renderedScale.1 = mathSign snapC9.scale.1 ∧
      mathSign targetC9.renderedScale.2 = mathSign snapC9.scale.2) ∧
    targetC9.renderedDirection = snapC9.direction ∧
    directionScaleUpdate (1/2) targetC9 snapC9 = none := by
  have hdiff : targetC9.renderedScale.1 ≠ snapC9.scale.1 ∨
      targetC9.renderedScale.2 ≠ snapC9.scale.2 := by
    left
    norm_num [targetC9, snapC9]
  have hsign : ¬(mathSign targetC9.renderedScale.1 = mathSign snapC9.scale.1 ∧
      mathSign targetC9.renderedScale.2 = mathSign snapC9.scale.2) := by
    norm_num [mathSign, targetC9, snapC9]
  have hdir : targetC9.renderedDirection = snapC9.direction := rfl
  exact ⟨hdiff, hsign, hdir,
    ((c9_scale_guard (1/2) targetC9 snapC9 hdiff).2 (Or.inl hsign)).2 hdir⟩

/-- When the drawable of the target is present in the store, the
position block never raises. -/
theorem positionUpdate_isSome (renderer : Renderer) (time : ℚ) (target : Target)
    (d : InterpolationData)
    (h : (renderer.allDrawables target.drawableID).isSome = true) :
    (positionUpdate renderer time target d).isSome = true := by
  cases hd : renderer.allDrawables target.drawableID with
  | none => simp [hd] at h
  | some drawable =>
    simp only [positionUpdate, hd]
    split_ifs <;> rfl

/-- A target whose snapshot, when present, has its drawable in the
store, is processed without raising. -/
theorem interpolateTarget_isSome (renderer : Renderer) (time : ℚ) (target : Target)
    (h : target.interpolationData ≠ none →
      (renderer.allDrawables target.drawableID).isSome = true) :
    (interpolateTarget renderer time target).isSome = true := by
  cases hd : target.interpolationData with
  | none => simp [interpolateTarget, hd]
  | some d =>
    have hp := positionUpdate_isSome renderer time target d (h (by simp [hd]))
    simp only [interpolateTarget, hd]
    cases hpu : positionUpdate renderer time target d with
    | none => simp [hpu] at hp
    | some pos => simp

/-- The loop of interpolate never raises when every snapshotted target
has its drawable in the store. -/
theorem interpolateTargets_isSome (renderer : Renderer) (time : ℚ) :
    ∀ l : List Target,
      (∀ target ∈ l, target.interpolationData ≠ none →
        (renderer.allDrawables target.drawableID).isSome = true) →
      (interpolateTargets renderer time l).isSome = true := by
  intro l
  induction l with
  | nil =>
    intro _
    simp [interpolateTargets]
  | cons target rest ih =>
    intro hall
    have h1 := interpolateTarget_isSome renderer time target (hall target (by simp))
    have h2 := ih (fun t ht => hall t (by simp [ht]))
    simp only [interpolateTargets]
    cases ht : interpolateTarget renderer time target with
    | none => simp [ht] at h1
    | some tu =>
      obtain ⟨t1, u⟩ := tu
      cases hr : interpolateTargets renderer time rest with
      | none => simp [hr] at h2
      | some restOut =>
        obtain ⟨ts, us⟩ := restOut
        simp [ht, hr]

/-- C2 counterexample: with a snapshotted target that moved more than
0.1 on x and a drawable store lacking its id, interpolate raises (the
unguarded lookup of line 50 of the source followed by getAABB on an
undefined drawable), instead of skipping the target. -/
theorem c2_missing_drawable_crash : interpolate runtimeC2 (1/2) = none := by
  norm_num [interpolate, interpolateTargets, interpolateTarget, positionUpdate,
    runtimeC2, targetC2, snapC2, rendererC2]

/-- C2 amended: setupInitialState is total, interpolate with an absent
renderer is a no-op returning the runtime unchanged with no calls, and
interpolate raises no exception provided every target holding a
snapshot has its drawableID present in the drawable store. -/
theorem c2_amended_no_raise (runtime : Runtime) (time : ℚ) :
    (setupInitialState runtime).targets.length = runtime.targets.length ∧
    (runtime.renderer = none → interpolate runtime time = some (runtime, [])) ∧
    (∀ renderer, runtime.renderer = some renderer →
      (∀ target ∈ runtime.targets, target.interpolationData ≠ none →
        (renderer.allDrawables target.drawableID).isSome = true) →
      (interpolate runtime time).isSome = true) := by
  refine ⟨by simp [setupInitialState], ?_, ?_⟩
  · intro hr
    simp [interpolate, hr]
  · intro renderer hr hall
    have h := interpolateTargets_isSome renderer time runtime.targets hall
    simp only [interpolate, hr]
    cases ht : interpolateTargets renderer time runtime.targets with
    | none => simp [ht] at h
    | some res =>
      obtain ⟨ts, us⟩ := res
      simp [ht]

/-- Witness for C2 amended: a complete drawable store, so the moved
snapshotted target is processed without raising. -/
theorem c2_amended_no_raise_witness :
    runtimeC2w.renderer = some rendererC2w ∧
    (∀ target ∈ runtimeC2w.targets, target.interpolationData ≠ none →
      (rendererC2w.allDrawables target.drawableID).isSome = true) ∧
    (interpolate runtimeC2w (1/2)).isSome = true := by
  have hr : runtimeC2w.renderer = some rendererC2w := rfl
  have hall : ∀ target ∈ runtimeC2w.targets, target.interpolationData ≠ none →
      (rendererC2w.allDrawables target.drawableID).isSome = true := by
    intro t ht _
    rfl
  exact ⟨hr, hall, (c2_amended_no_raise runtimeC2w (1/2)).2.2 rendererC2w hr hall⟩

/-- atan2 ranges over minus pi exclusive to pi inclusive. -/
theorem atan2_bounds (y x : ℝ) : -Real.pi < atan2 y x ∧ atan2 y x ≤ Real.pi :=
  ⟨Complex.neg_pi_lt_arg _, Complex.arg_le_pi _⟩

/-- The direction blend, in degrees, ranges over minus 180 exclusive to
180 inclusive. -/
theorem blendDirection_bounds (time direction startingDirection : ℚ) :
    -180 < blendDirection time direction startingDirection ∧
      blendDirection time direction startingDirection ≤ 180 := by
  have hπ : (0:ℝ) < Real.pi := Real.pi_pos
  obtain ⟨h1, h2⟩ := atan2_bounds
    (Real.sin (((direction : ℚ) : ℝ) * Real.pi / 180) * ((time : ℚ) : ℝ) +
      Real.sin (((startingDirection : ℚ) : ℝ) * Real.pi / 180))
    (Real.cos (((direction : ℚ) : ℝ) * Real.pi / 180) * ((time : ℚ) : ℝ) +
      Real.cos (((startingDirection : ℚ) : ℝ) * Real.pi / 180))
  unfold blendDirection
  constructor
  · rw [lt_div_iff₀ hπ]
    nlinarith
  · rw [div_le_iff₀ hπ]
    nlinarith

/-- The angle of the vector with both components 1 is a quarter pi. -/
theorem atan2_one_one : atan2 1 1 = Real.pi / 4 := by
  unfold atan2
  have hre : (⟨1, 1⟩ : ℂ).re = 1 := rfl
  have him : (⟨1, 1⟩ : ℂ).im = 1 := rfl
  have habs : |Complex.arg ⟨1, 1⟩| < Real.pi / 2 := by
    rw [Complex.abs_arg_lt_pi_div_two_iff]
    left
    rw [hre]
    norm_num
  have h3 : Real.arctan (Real.tan (Complex.arg ⟨1, 1⟩)) = Complex.arg ⟨1, 1⟩ :=
    Real.arctan_tan (abs_lt.mp habs).1 (abs_lt.mp habs).2
  rw [← h3, Complex.tan_arg, hre, him]
  norm_num [Real.arctan_one]

/-- At time 1 with current direction 90 and snapshot direction 0 the
blend is the angle of the vector sum (1, 1): 45 degrees, the average of
the two angles rather than the current angle. -/
theorem blendDirection_one_90_0 : blendDirection 1 90 0 = 45 := by
  have hπ0 : Real.pi ≠ 0 := Real.pi_ne_zero
  have h90 : ((90:ℚ):ℝ) * Real.pi / 180 = Real.pi / 2 := by
    push_cast
    ring
  have h0 : ((0:ℚ):ℝ) * Real.pi / 180 = 0 := by
    push_cast
    ring
  unfold blendDirection
  rw [h90, h0, Real.sin_pi_div_two, Real.cos_pi_div_two, Real.sin_zero, Real.cos_zero]
  have hY : (1:ℝ) * ((1:ℚ):ℝ) + 0 = 1 := by push_cast; ring
  have hX : (0:ℝ) * ((1:ℚ):ℝ) + 1 = 1 := by push_cast; ring
  rw [hY, hX, atan2_one_one]
  field_simp
  ring

/-- At time one half with current direction 10 and snapshot direction
350 the blend is the angle of the vector
(cos(pi/18) * 3/2, -sin(pi/18) / 2): it lies strictly between -10 and 0
degrees, on the short arc but not at 0. -/
theorem blendDirection_half_10_350_bounds :
    -10 < blendDirection (1/2) 10 350 ∧ blendDirection (1/2) 10 350 < 0 := by
  have hπ : (0:ℝ) < Real.pi := Real.pi_pos
  have h10 : ((10:ℚ):ℝ) * Real.pi / 180 = Real.pi / 18 := by
    push_cast
    ring
  have h350 : ((350:ℚ):ℝ) * Real.pi / 180 = 2 * Real.pi - Real.pi / 18 := by
    push_cast
    ring
  have h18lt : Real.pi / 18 < Real.pi / 2 :=
    (div_lt_div_iff_of_pos_left hπ (by norm_num) (by norm_num)).mpr (by norm_num)
  have h18pos : 0 < Real.pi / 18 := by positivity
  have hsin : 0 < Real.sin (Real.pi / 18) :=
    Real.sin_pos_of_pos_of_lt_pi h18pos (by linarith)
  have hcos : 0 < Real.cos (Real.pi / 18) :=
    Real.cos_pos_of_mem_Ioo ⟨by linarith, h18lt⟩
  have htan : 0 < Real.tan (Real.pi / 18) :=
    Real.tan_pos_of_pos_of_lt_pi_div_two h18pos h18lt
  have hY : Real.sin (2 * Real.pi - Real.pi / 18) = -Real.sin (Real.pi / 18) :=
    Real.sin_two_pi_sub _
  have hX : Real.cos (2 * Real.pi - Real.pi / 18) = Real.cos (Real.pi / 18) :=
    Real.cos_two_pi_sub _
  unfold blendDirection atan2
  rw [h10, h350, hY, hX]
  have hYv : Real.sin (Real.pi / 18) * (((1:ℚ)/2 : ℚ) : ℝ) + -Real.sin (Real.pi / 18) =
      -(Real.sin (Real.pi / 18)) / 2 := by
    push_cast
    ring
  have hXv : Real.cos (Real.pi / 18) * (((1:ℚ)/2 : ℚ) : ℝ) + Real.cos (Real.pi / 18) =
      Real.cos (Real.pi / 18) * (3 / 2) := by
    push_cast
    ring
  rw [hYv, hXv]
  have hre : (⟨Real.cos (Real.pi / 18) * (3 / 2), -(Real.sin (Real.pi / 18)) / 2⟩ : ℂ).re =
      Real.cos (Real.pi / 18) * (3 / 2) := rfl
  have him : (⟨Real.cos (Real.pi / 18) * (3 / 2), -(Real.sin (Real.pi / 18)) / 2⟩ : ℂ).im =
      -(Real.sin (Real.pi / 18)) / 2 := rfl
  have habs : |Complex.arg ⟨Real.cos (Real.pi / 18) * (3 / 2), -(Real.sin (Real.pi / 18)) / 2⟩| <
      Real.pi / 2 := by
    rw [Complex.abs_arg_lt_pi_div_two_iff]
    left
    rw [hre]
    positivity
  have harctan : Real.arctan (Real.tan (Complex.arg
      ⟨Real.cos (Real.pi / 18) * (3 / 2), -(Real.sin (Real.pi / 18)) / 2⟩)) =
      Complex.arg ⟨Real.cos (Real.pi / 18) * (3 / 2), -(Real.sin (Real.pi / 18)) / 2⟩ :=
    Real.arctan_tan (abs_lt.mp habs).1 (abs_lt.mp habs).2
  have hquot : (-(Real.sin (Real.pi / 18)) / 2) / (Real.cos (Real.pi / 18) * (3 / 2)) =
      -(Real.tan (Real.pi / 18) / 3) := by
    rw [Real.tan_eq_sin_div_cos]
    field_simp
    ring
  have harg : Complex.arg
      ⟨Real.cos (Real.pi / 18) * (3 / 2), -(Real.sin (Real.pi / 18)) / 2⟩ =
      -Real.arctan (Real.tan (Real.pi / 18) / 3) := by
    rw [← harctan, Complex.tan_arg, hre, him, hquot, Real.arctan_neg]
  rw [harg]
  have hlt18 : Real.arctan (Real.tan (Real.pi / 18) / 3) < Real.pi / 18 := by
    have h1 : Real.tan (Real.pi / 18) / 3 < Real.tan (Real.pi / 18) := by linarith
    have h2 := Real.arctan_strictMono h1
    rw [Real.arctan_tan (by linarith) h18lt] at h2
    exact h2
  have hgt0 : 0 < Real.arctan (Real.tan (Real.pi / 18) / 3) := by
    have h1 : (0:ℝ) < Real.tan (Real.pi / 18) / 3 := by linarith
    have h2 := Real.arctan_strictMono h1
    rw [Real.arctan_zero] at h2
    exact h2
  constructor
  · rw [lt_div_iff₀ hπ]
    nlinarith
  · apply div_neg_of_neg_of_pos
    · nlinarith
    · exact hπ

/-- C10: whenever the rendered direction differs from the snapshot
direction, the direction pushed by the direction-scale update lies in
the closed interval from -180 to 180 degrees, for every time value and
every pair of input directions. -/
theorem c10_direction_range (time : ℚ) (target : Target) (d : InterpolationData)
    (hne : target.renderedDirection ≠ d.direction) (res : ℝ × ℚ × ℚ)
    (h : directionScaleUpdate time target d = some res) :
    -180 ≤ res.1 ∧ res.1 ≤ 180 := by
  simp only [directionScaleUpdate] at h
  rw [if_pos (Or.inl hne), if_pos hne] at h
  cases h
  obtain ⟨hb1, hb2⟩ := blendDirection_bounds time target.renderedDirection d.direction
  exact ⟨le_of_lt hb1, hb2⟩

/-- Witness for C10: direction 0 to 90 at time 1; the pushed direction
is the blend value and lies within the range. -/
theorem c10_direction_range_witness :
    targetC10.renderedDirection ≠ snapC10.direction ∧
    directionScaleUpdate 1 targetC10 snapC10 = some (blendDirection 1 90 0, (1, 1)) ∧
    -180 ≤ blendDirection 1 90 0 ∧ blendDirection 1 90 0 ≤ 180 := by
  have hne : targetC10.renderedDirection ≠ snapC10.direction := by
    norm_num [targetC10, snapC10]
  have hnsi : ¬scaleInterpolated targetC10 snapC10 := by
    norm_num [scaleInterpolated, targetC10, snapC10]
  have he : directionScaleUpdate 1 targetC10 snapC10 =
      some (blendDirection 1 90 0, (1, 1)) := by
    simp only [directionScaleUpdate]
    rw [if_pos (Or.inl hne), if_pos hne, if_neg hnsi]
    rfl
  exact ⟨hne, he, c10_direction_range 1 targetC10 snapC10 hne _ he⟩

/-- C3: boundary behaviour at the concrete runtime with snapshot ghost
0, current ghost 10, snapshot direction 0, rendered direction 90: at
time 0 the pushed ghost is 10, the current value, not the snapshot
value 0; at time 1 the pushed ghost is 20, overshooting the current
value 10; and at time 1 the pushed direction is 45 degrees, the average
of the two angles, not the current 90 degrees. -/
theorem c3_boundary_bug_eval :
    ghostUpdate 0 targetC3 snapC3 = some 10 ∧
    ghostUpdate 1 targetC3 snapC3 = some 20 ∧
    directionScaleUpdate 1 targetC3 snapC3 = some (45, (1, 1)) ∧
    ((10:ℚ) ≠ 0 ∧ (20:ℚ) ≠ 10 ∧ (45:ℝ) ≠ 90) := by
  refine ⟨?_, ?_, ?_, by norm_num, by norm_num, by norm_num⟩
  · norm_num [ghostUpdate, targetC3, snapC3]
  · norm_num [ghostUpdate, targetC3, snapC3]
  · have hne : targetC3.renderedDirection ≠ snapC3.direction := by
      norm_num [targetC3, snapC3]
    have hnsi : ¬scaleInterpolated targetC3 snapC3 := by
      norm_num [scaleInterpolated, targetC3, snapC3]
    have he : directionScaleUpdate 1 targetC3 snapC3 =
        some (blendDirection 1 90 0, (1, 1)) := by
      simp only [directionScaleUpdate]
      rw [if_pos (Or.inl hne), if_pos hne, if_neg hnsi]
      rfl
    rw [he, blendDirection_one_90_0]

/-- C4: at the concrete runtime with snapshot direction 350 and rendered
direction 10, the direction-scale update at time one half pushes the
blend value, which lies strictly between -10 and 0 degrees: close to 0
on the short arc, but not equal to 0 (nor to any angle equivalent to 0),
because the vector sum weights the two angles by time and by 1. -/
theorem c4_direction_weights_bug_eval :
    directionScaleUpdate (1/2) targetC4 snapC4 =
      some (blendDirection (1/2) 10 350, (1, 1)) ∧
    -10 < blendDirection (1/2) 10 350 ∧ blendDirection (1/2) 10 350 < 0 := by
  have hne : targetC4.renderedDirection ≠ snapC4.direction := by
    norm_num [targetC4, snapC4]
  have hnsi : ¬scaleInterpolated targetC4 snapC4 := by
    norm_num [scaleInterpolated, targetC4, snapC4]
  refine ⟨?_, blendDirection_half_10_350_bounds⟩
  simp only [directionScaleUpdate]
  rw [if_pos (Or.inl hne), if_pos hne, if_neg hnsi]
  rfl
